import Mathlib

/-!
Verification development for the process-lifecycle core of `lighthouse`
(`src/lighthouse/src/main.rs`): the service supervisor that selects an
operating mode, builds the runtime environment, launches the selected
service, and coordinates shutdown through a single-slot shutdown channel.

The embedding models `run` and `main` as pure functions producing an event
trace together with an outcome.  External collaborators (the beacon node,
validator client, remote signer and account manager entry points) are
opaque: their outcomes are parameters of the model.  Side effects that are
visible in `main.rs` (log records, `eprintln!` lines, `try_send` calls on
the shutdown channel, the supervised-shutdown steps) are recorded as trace
events in the order the source performs them.
-/

namespace Lighthouse

/-- The `ShutdownReason` type of the `task_executor` crate as used by `main.rs`:
a tagged variant carrying a message (`&'static str` in the source). -/
inductive ShutdownReason where
  | Success (msg : String)
  | Failure (msg : String)
deriving DecidableEq, Repr

/-- Observable steps of `run`/`main`, in source order:
logger/runtime/environment construction (lines 279-291), the
`account_manager` path (340-347), the two `info!` records (349-354), the
service launches and their `try_send` calls (356-439), and the
supervised-shutdown sequence (441-453).  `eprintln` lines go to the
standard error stream; `critLog` records go to the `slog` logger. -/
inductive Event where
  | builtLogger
  | builtRuntime
  | builtEnvironment
  | eprintln (line : String)
  | ranAccountManager
  | logStarted
  | logNetwork (name : String)
  | startBeaconNode
  | startValidatorNew
  | startValidatorService
  | ranRemoteSigner
  | ranBootNode
  | critLog (msg : String) (reason : String)
  | sendAttempt (r : ShutdownReason)
  | waitForShutdownReason
  | receivedReason (r : ShutdownReason)
  | fireSignal
  | shutdownOnIdle
deriving DecidableEq, Repr

/-- The three mutually exclusive network-source flags consumed by `run`
(lines 323-326): `--network`, `--testnet-dir`, `--testnet-spec-config`
(the YAML override file).  Paths are modelled as strings (their
`Display` form). -/
structure NetworkFlags where
  network : Option String
  testnetDir : Option String
  testnetYamlConfig : Option String
deriving DecidableEq, Repr

/-- The `network_name` computation of `run` (lines 328-338): named preset,
else `custom (<dir>)`, else `custom loaded from <yaml>`, else the
hard-coded default network name, and an error on any other combination. -/
def networkName (flags : NetworkFlags) (defaultNetwork : String) :
    Except String String :=
  match flags.network, flags.testnetDir, flags.testnetYamlConfig with
  | some testnet, none, none => .ok testnet
  | none, some testnetDir, none => .ok ("custom (" ++ testnetDir ++ ")")
  | none, none, some yamlFile => .ok ("custom loaded from " ++ yamlFile)
  | none, none, none => .ok defaultNetwork
  | _, _, _ => .error "Invalid combination of testnet flags"

/-- Number of populated network sources among the three flags. -/
def populatedCount (flags : NetworkFlags) : Nat :=
  (if flags.network.isSome then 1 else 0) +
  (if flags.testnetDir.isSome then 1 else 0) +
  (if flags.testnetYamlConfig.isSome then 1 else 0)

deriving instance DecidableEq for Except

/-- The subcommand dispatched by `run` (lines 356-439) together with the
opaque outcomes of the external service entry points.  `beacon_node`
carries the `--immediate-shutdown` flag and the result of
`ProductionBeaconNode::new`; `validator_client` carries the flag, the
result of `ProductionValidatorClient::new` and of `start_service`;
`remote_signer` and `account_manager` carry their synchronous results. -/
inductive Subcommand where
  | beacon_node (immediateShutdown : Bool) (nodeStart : Except String Unit)
  | validator_client (immediateShutdown : Bool)
      (clientNew : Except String Unit) (startService : Except String Unit)
  | remote_signer (result : Except String Unit)
  | account_manager (result : Except String Unit)
  | noSubcommand
deriving DecidableEq, Repr

/-- Modelled from the spec: the ShutdownChannel is a single-slot channel;
`try_send` fills an empty slot and is silently dropped when the slot is
already occupied (the channel itself lives in the `task_executor` crate,
outside `src/`). -/
def trySend (slot : Option ShutdownReason) (r : ShutdownReason) :
    Option ShutdownReason :=
  match slot with
  | none => some r
  | some r0 => some r0

/-- The reason accepted by the channel after a sequence of `try_send`
attempts, in order. -/
def acceptedReason (sends : List ShutdownReason) : Option ShutdownReason :=
  sends.foldl trySend none

/-- Modelled from the spec: `Environment::block_until_shutdown_requested`
(in the `environment` crate, outside `src/`) returns the reason accepted
by the ShutdownChannel, or a `Success` reason for an external interrupt;
with neither, it blocks forever (`none`). -/
def blockUntilShutdownRequested (slot : Option ShutdownReason)
    (interrupt : Bool) : Option ShutdownReason :=
  match slot with
  | some r => some r
  | none => if interrupt then some (.Success "interrupt") else none

/-- Outcome of `run`: it either returns a `Result<(), String>` or blocks
forever waiting for a shutdown reason that never arrives. -/
inductive RunResult where
  | done (result : Except String Unit)
  | hangs
deriving DecidableEq, Repr

/-- Lines 450-453: map the accepted reason to `run`'s return value. -/
def mapReason : ShutdownReason → Except String Unit
  | .Success _ => .ok ()
  | .Failure msg => .error msg

/-- The supervised-shutdown tail of `run` (lines 441-453): block until a
reason is received, then `fire_signal`, then `shutdown_on_idle`, then map
the reason to the return value. -/
def supervisorTail (slot : Option ShutdownReason) (interrupt : Bool) :
    List Event × RunResult :=
  match blockUntilShutdownRequested slot interrupt with
  | none => ([Event.waitForShutdownReason], .hangs)
  | some r =>
      ([Event.waitForShutdownReason, Event.receivedReason r,
        Event.fireSignal, Event.shutdownOnIdle],
       .done (mapReason r))

/-- The launch step for the subcommands that fall through to the
supervised-shutdown path (lines 356-434), returning the events of the
launched work.  The `account_manager` and missing-subcommand paths return
early from `run` and are handled there.

For `beacon_node` (375-388): the spawned task always awaits
`ProductionBeaconNode::new`; on error it logs critically and sends
`Failure("Failed to start beacon node")`; on success it sends
`Success("Beacon node immediate shutdown triggered.")` when the
`--immediate-shutdown` flag is set.

For `validator_client` (404-423): with the flag set, nothing is spawned and
`Success("Validator client immediate shutdown triggered.")` is sent
directly; otherwise `ProductionValidatorClient::new` is awaited and, on
its error, the `?` operator exits the spawned task without sending
anything; when `new` succeeds, `start_service` runs and on its error the
task logs critically and sends `Failure("Failed to start validator
client")`.

For `remote_signer` (425-434): runs synchronously; on error it logs
critically and sends `Failure("Failed to start remote signer")`; either
way it falls through to the supervised wait. -/
def launch : Subcommand → List Event
  | .beacon_node immediateShutdown nodeStart =>
      [Event.startBeaconNode] ++
        (match nodeStart with
         | .error e =>
            [Event.critLog "Failed to start beacon node" e,
             Event.sendAttempt (ShutdownReason.Failure "Failed to start beacon node")]
         | .ok _ =>
            if immediateShutdown then
              [Event.sendAttempt
                (ShutdownReason.Success "Beacon node immediate shutdown triggered.")]
            else [])
  | .validator_client immediateShutdown clientNew startService =>
      if immediateShutdown then
        [Event.sendAttempt
          (ShutdownReason.Success "Validator client immediate shutdown triggered.")]
      else
        [Event.startValidatorNew] ++
        (match clientNew with
         | .error _ => []
         | .ok _ =>
            [Event.startValidatorService] ++
            (match startService with
             | .error e =>
                [Event.critLog "Failed to start validator client" e,
                 Event.sendAttempt
                   (ShutdownReason.Failure "Failed to start validator client")]
             | .ok _ => []))
  | .remote_signer result =>
      [Event.ranRemoteSigner] ++
        (match result with
         | .error e =>
            [Event.critLog "Failed to start remote signer" e,
             Event.sendAttempt (ShutdownReason.Failure "Failed to start remote signer")]
         | .ok _ => [])
  | .account_manager _ => []
  | .noSubcommand => []

/-- The `try_send` attempts recorded in a trace, in order. -/
def sendsOf (t : List Event) : List ShutdownReason :=
  t.filterMap fun e =>
    match e with
    | .sendAttempt r => some r
    | _ => none

/-- Input to `run`: the pointer width (`size_of::<usize>()`), the
`--debug-level` value (always present via a clap default, kept optional as
the source checks it), the network flags, the hard-coded default network
name (`DEFAULT_HARDCODED_NETWORK`, a constant of the
`eth2_network_config` crate), whether an external interrupt eventually
arrives, and the subcommand with its opaque service outcomes. -/
structure RunInput where
  pointerWidthBytes : Nat
  debugLevel : Option String
  flags : NetworkFlags
  defaultNetwork : String
  interrupt : Bool
  sub : Subcommand
deriving DecidableEq, Repr

/-- The `run` function of `main.rs` (lines 261-454) as a trace-producing
function.  In source order: the 64-bit architecture check (266-271), the
`--debug-level` check (273-275), logger/runtime/environment construction
(279-291), the `network_name` resolution (328-338), the early
`account_manager` path (340-347), the two `info!` records (349-354), the
subcommand launch (356-439), and the supervised-shutdown tail (441-453).
Construction failures of the logger/runtime (external crates) and the
diagnostic `--dump-config` file write are not modelled. -/
def run (i : RunInput) : List Event × RunResult :=
  if i.pointerWidthBytes ≠ 8 then
    ([], .done (.error (toString (i.pointerWidthBytes * 8) ++
      "-bit architecture is not supported (64-bit only).")))
  else
    match i.debugLevel with
    | none => ([], .done (.error "Expected --debug-level flag"))
    | some _ =>
      let ctx := [Event.builtLogger, Event.builtRuntime, Event.builtEnvironment]
      match networkName i.flags i.defaultNetwork with
      | .error e => (ctx, .done (.error e))
      | .ok name =>
        match i.sub with
        | .account_manager result =>
            (ctx ++ [Event.eprintln ("Running account manager for " ++ name ++ " network"),
                     Event.ranAccountManager],
             .done result)
        | .noSubcommand =>
            (ctx ++ [Event.logStarted, Event.logNetwork name,
                     Event.critLog "No subcommand supplied. See --help ." ""],
             .done (.error "No subcommand supplied."))
        | sub =>
          let evs := launch sub
          let tail := supervisorTail (acceptedReason (sendsOf evs)) i.interrupt
          (ctx ++ [Event.logStarted, Event.logNetwork name] ++ evs ++ tail.1, tail.2)

/-- The process exit status derived from `run`'s outcome by `main`
(lines 251-258): `Ok` exits 0, `Err` exits 1, and a hung `run` never
exits. -/
def processExitStatus : RunResult → Option Nat
  | .done (.ok _) => some 0
  | .done (.error _) => some 1
  | .hangs => none

/-- Extracts the standard-error line of an `eprintln` event. -/
def eprintlnOf : Event → Option String
  | .eprintln s => some s
  | _ => none

/-- The lines written to the standard error stream during a run: the
`eprintln!` lines of `run` followed by, on `Err`, the message printed by
`main` (line 254). -/
def processStderr (t : List Event) (res : RunResult) : List String :=
  t.filterMap eprintlnOf ++
  (match res with
   | .done (.error e) => [e]
   | _ => [])

/-- Classifies the four supervised-shutdown steps of lines 441-453 in
their source order: block on the channel (0), reason received (1),
`fire_signal` (2), `shutdown_on_idle` (3). -/
def shutdownStepKind : Event → Option Nat
  | .waitForShutdownReason => some 0
  | .receivedReason _ => some 1
  | .fireSignal => some 2
  | .shutdownOnIdle => some 3
  | _ => none

/-- The supervised-shutdown steps occurring in a trace, in order. -/
def shutdownSteps (t : List Event) : List Nat :=
  t.filterMap shutdownStepKind

/-- Whether an event interacts with the ShutdownChannel or the
supervised-shutdown path (a send attempt, the blocking wait, or any later
shutdown step). -/
def touchesChannel : Event → Bool
  | .sendAttempt _ => true
  | .waitForShutdownReason => true
  | .receivedReason _ => true
  | .fireSignal => true
  | .shutdownOnIdle => true
  | _ => false

/-- The `EthSpecId` type of the `types` crate: the spec variant implied by
the resolved network configuration. -/
inductive EthSpecId where
  | Mainnet
  | Minimal
  | V012Legacy
deriving DecidableEq, Repr

/-- The display name of an `EthSpecId` (its `Display` impl lives in the
`types` crate, outside `src/`; modelled from the variant names). -/
def specName : EthSpecId → String
  | .Mainnet => "mainnet"
  | .Minimal => "minimal"
  | .V012Legacy => "v0.12-legacy"

/-- The compiled-in capability feature flags consulted by `main`
(lines 227-244): `spec-minimal` and `spec-v12`.  Mainnet support is
unconditional. -/
structure BuildFeatures where
  specMinimal : Bool
  specV12 : Bool
deriving DecidableEq, Repr

/-- Whether the build supports the given spec variant (the `cfg` gating of
the match arms in lines 227-244). -/
def specSupported (features : BuildFeatures) : EthSpecId → Bool
  | .Mainnet => true
  | .Minimal => features.specMinimal
  | .V012Legacy => features.specV12

/-- The observable process outcome: the trace, the exit status (`none`
when the process never exits), and the standard-error lines. -/
structure ProcResult where
  trace : List Event
  exitStatus : Option Nat
  stderr : List String
deriving DecidableEq, Repr

/-- The dispatch of `main` (lines 211-258) after the network config has
resolved: the `boot_node` subcommand circumvents the environment and
returns `Ok` (215-225, hence exit status 0); otherwise the spec variant is
matched against the compiled-in features and an unsupported variant prints
two lines to stderr and exits 1 (227-244); a supported variant runs `run`
and `main` maps its result to the exit status (251-258). -/
def lighthouseMain (features : BuildFeatures) (ethSpecId : EthSpecId)
    (isBootNode : Bool) (i : RunInput) : ProcResult :=
  if isBootNode then
    ⟨[Event.ranBootNode], some 0, []⟩
  else if specSupported features ethSpecId then
    let (t, res) := run i
    ⟨t, processExitStatus res, processStderr t res⟩
  else
    ⟨[], some 1,
     ["Eth spec `" ++ specName ethSpecId ++ "` is not supported by this build of Lighthouse",
      "You must compile with a feature flag to enable this spec variant"]⟩

/-- Network flags with no source populated. -/
def defaultFlags : NetworkFlags := ⟨none, none, none⟩

/-- A canonical `run` input on a 64-bit platform with default flags and no
external interrupt. -/
def mkInput (sub : Subcommand) : RunInput :=
  ⟨8, some "info", defaultFlags, "mainnet", false, sub⟩

/-- A canonical `run` input with the given network flags. -/
def mkInputFlags (flags : NetworkFlags) (sub : Subcommand) : RunInput :=
  ⟨8, some "info", flags, "mainnet", false, sub⟩

/-- Substring test used to state which messages appear in which stream:
`containsSub s pat` is true when `pat` occurs contiguously in `s`. -/
def charsLeadWith : List Char → List Char → Bool
  | [], _ => true
  | _ :: _, [] => false
  | p :: ps, c :: cs => p == c && charsLeadWith ps cs

/-- Auxiliary scan for `containsSub` over character lists. -/
def charsContain (pat : List Char) : List Char → Bool
  | [] => pat.isEmpty
  | c :: cs => charsLeadWith pat (c :: cs) || charsContain pat cs

/-- Whether string `pat` occurs contiguously inside `s`. -/
def containsSub (s pat : String) : Bool :=
  charsContain pat.toList s.toList

/-- Flags naming both a preset network and a custom testnet directory. -/
def conflictingFlags : NetworkFlags := ⟨some "mainnet", some "/tmp/testnet", none⟩

/-- A beacon-node invocation carrying the conflicting network flags. -/
def conflictingFlagsInput : RunInput :=
  mkInputFlags conflictingFlags (.beacon_node false (.ok ()))

/-- A beacon-node invocation with `--immediate-shutdown` set whose node
startup succeeds. -/
def beaconImmediateInput : RunInput := mkInput (.beacon_node true (.ok ()))

/-- A validator-client invocation whose `start_service` fails with the
service's own error message. -/
def validatorServiceFailInput : RunInput :=
  mkInput (.validator_client false (.ok ()) (.error "unable to connect to signer"))

/-- A validator-client invocation whose `ProductionValidatorClient::new`
fails with the service's own error message. -/
def validatorNewFailInput : RunInput :=
  mkInput (.validator_client false (.error "unable to connect to signer") (.ok ()))

/-- A `run` input on a 32-bit platform. -/
def input32 : RunInput :=
  ⟨4, some "info", defaultFlags, "mainnet", false, .noSubcommand⟩

/-- Flags selecting only the named preset network. -/
def presetOnlyFlags : NetworkFlags := ⟨some "prater", none, none⟩

/-- A beacon-node invocation whose node startup fails with message `e`. -/
def beaconFailInput (e : String) : RunInput :=
  mkInput (.beacon_node false (.error e))

/-- A validator-client invocation whose `start_service` fails with
message `e`. -/
def validatorStartFailInput (e : String) : RunInput :=
  mkInput (.validator_client false (.ok ()) (.error e))

/-- A validator-client invocation whose `ProductionValidatorClient::new`
fails with message `e`. -/
def validatorNewFailInputOf (e : String) : RunInput :=
  mkInput (.validator_client false (.error e) (.ok ()))

/-- A remote-signer invocation whose synchronous run fails with
message `e`. -/
def remoteSignerFailInput (e : String) : RunInput :=
  mkInput (.remote_signer (.error e))

/-- Whether any standard-error line of a run mentions `pat`. -/
def stderrMentions (t : List Event) (res : RunResult) (pat : String) : Bool :=
  (processStderr t res).any fun l => containsSub l pat

/-- The exit status prescribed for an accepted reason: `Success` exits 0,
`Failure` exits 1. -/
def reasonExitStatus : ShutdownReason → Option Nat
  | .Success _ => some 0
  | .Failure _ => some 1

/-- The standard-error output prescribed for an accepted reason: nothing
on `Success`, the carried message on `Failure`. -/
def reasonStderr : ShutdownReason → List String
  | .Success _ => []
  | .Failure m => [m]

/-- The exit status a synchronous mode's own outcome maps to. -/
def ownExitStatus : Except String Unit → Nat
  | .ok _ => 0
  | .error _ => 1

/-- Whether a trace contains no interaction with the ShutdownChannel or
the supervised-shutdown path. -/
def channelFree (t : List Event) : Bool :=
  t.all fun e => !touchesChannel e

/-- The events `run` has emitted when it reaches the subcommand match with
a resolved network name: the RuntimeContext construction events followed
by the two informational log records. -/
def preList (name : String) : List Event :=
  [Event.builtLogger, Event.builtRuntime, Event.builtEnvironment,
   Event.logStarted, Event.logNetwork name]

/-- The shape every `run` outcome has: either no supervised-shutdown step
occurs at all, or the run blocks forever after the wait step, or the full
ordered step sequence wait/received/fire/idle occurs for a unique
received reason whose mapping is the run's result. -/
def ShapeProp (t : List Event) (res : RunResult) : Prop :=
  (shutdownSteps t = [] ∧ (∀ r, Event.receivedReason r ∉ t) ∧
     Event.fireSignal ∉ t) ∨
  (shutdownSteps t = [0] ∧ (∀ r, Event.receivedReason r ∉ t) ∧
     Event.fireSignal ∉ t ∧ res = .hangs) ∨
  (∃ r, shutdownSteps t = [0, 1, 2, 3] ∧
     Event.receivedReason r ∈ t ∧
     res = .done (mapReason r) ∧
     t.filterMap eprintlnOf = [] ∧
     (∀ r', Event.receivedReason r' ∈ t → r' = r))

theorem foldl_trySend_some (l : List ShutdownReason) (r : ShutdownReason) :
    l.foldl trySend (some r) = some r := by
  induction l with
  | nil => rfl
  | cons x xs ih => simpa [trySend] using ih

theorem acceptedReason_cons (r : ShutdownReason) (l : List ShutdownReason) :
    acceptedReason (r :: l) = some r := by
  simp [acceptedReason, trySend, foldl_trySend_some]

theorem shutdownSteps_launch (sub : Subcommand) :
    shutdownSteps (launch sub) = [] := by
  cases sub with
  | beacon_node fl ns =>
      cases ns <;> cases fl <;> simp [launch, shutdownSteps, shutdownStepKind]
  | validator_client fl cn ss =>
      cases fl <;> cases cn <;> cases ss <;>
        simp [launch, shutdownSteps, shutdownStepKind]
  | remote_signer r => cases r <;> simp [launch, shutdownSteps, shutdownStepKind]
  | account_manager r => simp [launch, shutdownSteps]
  | noSubcommand => simp [launch, shutdownSteps]

theorem eprintln_launch (sub : Subcommand) :
    (launch sub).filterMap eprintlnOf = [] := by
  cases sub with
  | beacon_node fl ns =>
      cases ns <;> cases fl <;> simp [launch, eprintlnOf]
  | validator_client fl cn ss =>
      cases fl <;> cases cn <;> cases ss <;> simp [launch, eprintlnOf]
  | remote_signer r => cases r <;> simp [launch, eprintlnOf]
  | account_manager r => simp [launch]
  | noSubcommand => simp [launch]

theorem receivedReason_not_mem {t : List Event} (h : shutdownSteps t = [])
    (r : ShutdownReason) : Event.receivedReason r ∉ t := by
  intro hm
  have hmem : (1 : Nat) ∈ shutdownSteps t :=
    List.mem_filterMap.mpr ⟨Event.receivedReason r, hm, rfl⟩
  rw [h] at hmem
  exact absurd hmem (List.not_mem_nil 1)

theorem fireSignal_not_mem {t : List Event} (h : shutdownSteps t = []) :
    Event.fireSignal ∉ t := by
  intro hm
  have hmem : (2 : Nat) ∈ shutdownSteps t :=
    List.mem_filterMap.mpr ⟨Event.fireSignal, hm, rfl⟩
  rw [h] at hmem
  exact absurd hmem (List.not_mem_nil 2)

theorem shape_super (pre evs : List Event) (interrupt : Bool)
    (hs : shutdownSteps pre = []) (he : shutdownSteps evs = [])
    (hps : pre.filterMap eprintlnOf = []) (hpe : evs.filterMap eprintlnOf = []) :
    ShapeProp (pre ++ evs ++ (supervisorTail (acceptedReason (sendsOf evs)) interrupt).1)
      (supervisorTail (acceptedReason (sendsOf evs)) interrupt).2 := by
  simp only [shutdownSteps] at hs he
  cases hb : blockUntilShutdownRequested (acceptedReason (sendsOf evs)) interrupt with
  | none =>
      right; left
      refine ⟨?_, ?_, ?_, ?_⟩
      · simp [supervisorTail, hb, shutdownSteps, List.filterMap_append, hs, he,
              shutdownStepKind]
      · intro r hm
        rcases List.mem_append.mp hm with hm' | hm'
        · rcases List.mem_append.mp hm' with h1 | h1
          · exact absurd h1 (receivedReason_not_mem hs r)
          · exact absurd h1 (receivedReason_not_mem he r)
        · simp [supervisorTail, hb] at hm'
      · intro hm
        rcases List.mem_append.mp hm with hm' | hm'
        · rcases List.mem_append.mp hm' with h1 | h1
          · exact absurd h1 (fireSignal_not_mem hs)
          · exact absurd h1 (fireSignal_not_mem he)
        · simp [supervisorTail, hb] at hm'
      · simp [supervisorTail, hb]
  | some r =>
      right; right
      refine ⟨r, ?_, ?_, ?_, ?_, ?_⟩
      · simp [supervisorTail, hb, shutdownSteps, List.filterMap_append, hs, he,
              shutdownStepKind]
      · simp [supervisorTail, hb]
      · simp [supervisorTail, hb]
      · simp [supervisorTail, hb, List.filterMap_append, hps, hpe, eprintlnOf]
      · intro r' hm
        rcases List.mem_append.mp hm with hm' | hm'
        · rcases List.mem_append.mp hm' with h1 | h1
          · exact absurd h1 (receivedReason_not_mem hs r')
          · exact absurd h1 (receivedReason_not_mem he r')
        · simp [supervisorTail, hb] at hm'
          exact hm'

theorem run_shape (i : RunInput) : ShapeProp (run i).1 (run i).2 := by
  obtain ⟨w, dl, flags, dflt, intr, sub⟩ := i
  by_cases hw : w = 8
  case neg =>
    refine Or.inl ⟨?_, ?_, ?_⟩ <;> simp [run, hw, shutdownSteps]
  case pos =>
    subst hw
    cases dl with
    | none => refine Or.inl ⟨?_, ?_, ?_⟩ <;> simp [run, shutdownSteps]
    | some d =>
      cases hnn : networkName flags dflt with
      | error e =>
          refine Or.inl ⟨?_, ?_, ?_⟩ <;>
            simp [run, hnn, shutdownSteps, shutdownStepKind]
      | ok name =>
          cases sub with
          | account_manager res =>
              refine Or.inl ⟨?_, ?_, ?_⟩ <;>
                simp [run, hnn, shutdownSteps, shutdownStepKind]
          | noSubcommand =>
              refine Or.inl ⟨?_, ?_, ?_⟩ <;>
                simp [run, hnn, shutdownSteps, shutdownStepKind]
          | beacon_node fl ns =>
              have hrun : run ⟨8, some d, flags, dflt, intr, .beacon_node fl ns⟩ =
                  (preList name ++ launch (.beacon_node fl ns) ++
                     (supervisorTail
                       (acceptedReason (sendsOf (launch (.beacon_node fl ns)))) intr).1,
                   (supervisorTail
                     (acceptedReason (sendsOf (launch (.beacon_node fl ns)))) intr).2) := by
                simp [run, hnn, preList]
              rw [hrun]
              exact shape_super (preList name) _ intr
                (by simp [preList, shutdownSteps, shutdownStepKind])
                (shutdownSteps_launch _)
                (by simp [preList, eprintlnOf])
                (eprintln_launch _)
          | validator_client fl cn ss =>
              have hrun : run ⟨8, some d, flags, dflt, intr, .validator_client fl cn ss⟩ =
                  (preList name ++ launch (.validator_client fl cn ss) ++
                     (supervisorTail
                       (acceptedReason (sendsOf (launch (.validator_client fl cn ss)))) intr).1,
                   (supervisorTail
                     (acceptedReason (sendsOf (launch (.validator_client fl cn ss)))) intr).2) := by
                simp [run, hnn, preList]
              rw [hrun]
              exact shape_super (preList name) _ intr
                (by simp [preList, shutdownSteps, shutdownStepKind])
                (shutdownSteps_launch _)
                (by simp [preList, eprintlnOf])
                (eprintln_launch _)
          | remote_signer res =>
              have hrun : run ⟨8, some d, flags, dflt, intr, .remote_signer res⟩ =
                  (preList name ++ launch (.remote_signer res) ++
                     (supervisorTail
                       (acceptedReason (sendsOf (launch (.remote_signer res)))) intr).1,
                   (supervisorTail
                     (acceptedReason (sendsOf (launch (.remote_signer res)))) intr).2) := by
                simp [run, hnn, preList]
              rw [hrun]
              exact shape_super (preList name) _ intr
                (by simp [preList, shutdownSteps, shutdownStepKind])
                (shutdownSteps_launch _)
                (by simp [preList, eprintlnOf])
                (eprintln_launch _)

theorem networkName_conflict (flags : NetworkFlags) (dflt : String)
    (h : 1 < populatedCount flags) :
    networkName flags dflt = .error "Invalid combination of testnet flags" := by
  obtain ⟨n, d, y⟩ := flags
  cases n <;> cases d <;> cases y <;> simp_all [populatedCount, networkName]

theorem networkName_ok_of_single (flags : NetworkFlags) (dflt : String)
    (h : populatedCount flags ≤ 1) :
    ∃ name, networkName flags dflt = .ok name := by
  obtain ⟨n, d, y⟩ := flags
  cases n <;> cases d <;> cases y <;> simp_all [populatedCount, networkName]

/-- C1 counterexample: a beacon-node (ServingNode) invocation with the
immediate-shutdown flag set still starts the service entry point
(`ProductionBeaconNode::new` is awaited before the flag is consulted,
lines 375-388): the business logic does execute, contrary to the claim
that it never does. -/
theorem immediate_shutdown_starts_beacon_entry_point :
    Event.startBeaconNode ∈ (run beaconImmediateInput).1 ∧
    processExitStatus (run beaconImmediateInput).2 = some 0 := by decide

/-- C1 (amended): with the immediate-shutdown flag set, a validator-client
(SigningClient) invocation never starts its entry point and reports
`Success` directly to the channel, exiting with status 0; a beacon-node
(ServingNode) invocation starts its entry point and, when startup
succeeds, reports `Success` and exits with status 0. -/
theorem immediate_shutdown_behaviour (clientNew startService : Except String Unit) :
    (Event.startValidatorNew ∉
       (run (mkInput (.validator_client true clientNew startService))).1 ∧
     Event.startValidatorService ∉
       (run (mkInput (.validator_client true clientNew startService))).1 ∧
     Event.sendAttempt
         (ShutdownReason.Success "Validator client immediate shutdown triggered.") ∈
       (run (mkInput (.validator_client true clientNew startService))).1 ∧
     processExitStatus
       (run (mkInput (.validator_client true clientNew startService))).2 = some 0) ∧
    (Event.startBeaconNode ∈ (run beaconImmediateInput).1 ∧
     Event.sendAttempt
         (ShutdownReason.Success "Beacon node immediate shutdown triggered.") ∈
       (run beaconImmediateInput).1 ∧
     processExitStatus (run beaconImmediateInput).2 = some 0) := by
  refine ⟨⟨?_, ?_, ?_, ?_⟩, by decide⟩ <;>
    simp [run, mkInput, defaultFlags, networkName, launch, sendsOf, acceptedReason,
          trySend, supervisorTail, blockUntilShutdownRequested, mapReason,
          processExitStatus, eprintlnOf]

/-- C2 counterexample: when the validator client's `start_service` fails
with "unable to connect to signer", the channel carries the fixed message
"Failed to start validator client"; the process exits 1 but its standard
error consists of that fixed message only — the service's own message
never appears there.  And when `ProductionValidatorClient::new` fails,
the error is swallowed by the `?` operator (line 407): nothing is sent to
the channel and the process never exits. -/
theorem service_error_message_not_on_stderr :
    (processExitStatus (run validatorServiceFailInput).2 = some 1 ∧
     processStderr (run validatorServiceFailInput).1
         (run validatorServiceFailInput).2 =
       ["Failed to start validator client"] ∧
     stderrMentions (run validatorServiceFailInput).1
         (run validatorServiceFailInput).2 "unable to connect to signer" = false) ∧
    ((run validatorNewFailInput).2 = RunResult.hangs ∧
     sendsOf (run validatorNewFailInput).1 = []) := by decide

/-- C2 (amended): when a launched service's startup phase fails, the
launcher reports `ShutdownReason::Failure` carrying a fixed message naming
the service ("Failed to start beacon node" / "Failed to start validator
client" / "Failed to start remote signer"); the process exits with status
1 and that fixed message is the standard-error line, while the service's
own error text goes to a critical log record; a failure of the validator
client's initialisation (`new`) is swallowed: nothing is sent to the
channel and the process never exits. -/
theorem service_failure_reporting (e : String) :
    (Event.sendAttempt (ShutdownReason.Failure "Failed to start beacon node") ∈
       (run (beaconFailInput e)).1 ∧
     Event.critLog "Failed to start beacon node" e ∈ (run (beaconFailInput e)).1 ∧
     processExitStatus (run (beaconFailInput e)).2 = some 1 ∧
     processStderr (run (beaconFailInput e)).1 (run (beaconFailInput e)).2 =
       ["Failed to start beacon node"]) ∧
    (Event.sendAttempt (ShutdownReason.Failure "Failed to start validator client") ∈
       (run (validatorStartFailInput e)).1 ∧
     Event.critLog "Failed to start validator client" e ∈
       (run (validatorStartFailInput e)).1 ∧
     processExitStatus (run (validatorStartFailInput e)).2 = some 1 ∧
     processStderr (run (validatorStartFailInput e)).1
         (run (validatorStartFailInput e)).2 =
       ["Failed to start validator client"]) ∧
    (Event.sendAttempt (ShutdownReason.Failure "Failed to start remote signer") ∈
       (run (remoteSignerFailInput e)).1 ∧
     Event.critLog "Failed to start remote signer" e ∈
       (run (remoteSignerFailInput e)).1 ∧
     processExitStatus (run (remoteSignerFailInput e)).2 = some 1 ∧
     processStderr (run (remoteSignerFailInput e)).1
         (run (remoteSignerFailInput e)).2 =
       ["Failed to start remote signer"]) ∧
    (sendsOf (run (validatorNewFailInputOf e)).1 = [] ∧
     (run (validatorNewFailInputOf e)).2 = RunResult.hangs ∧
     processExitStatus (run (validatorNewFailInputOf e)).2 = none) := by
  refine ⟨⟨?_, ?_, ?_, ?_⟩, ⟨?_, ?_, ?_, ?_⟩, ⟨?_, ?_, ?_, ?_⟩, ⟨?_, ?_, ?_⟩⟩ <;>
    simp [run, mkInput, beaconFailInput, validatorStartFailInput, remoteSignerFailInput,
          validatorNewFailInputOf, defaultFlags, networkName, launch, sendsOf,
          acceptedReason, trySend, supervisorTail, blockUntilShutdownRequested,
          mapReason, processExitStatus, processStderr, eprintlnOf]

/-- C3 counterexample: with both a named preset and a custom testnet
directory supplied, `run` does fail with the configuration error, but its
trace already contains the environment-construction event: the failure
happens after the RuntimeContext is built (lines 279-291 precede
lines 328-338), not before. -/
theorem conflicting_flags_error_after_runtime_context :
    1 < populatedCount conflictingFlags ∧
    (run conflictingFlagsInput).2 =
      .done (.error "Invalid combination of testnet flags") ∧
    Event.builtEnvironment ∈ (run conflictingFlagsInput).1 := by decide

/-- C3 (amended): every configuration supplying more than one of the
network sources fails with the configuration error "Invalid combination
of testnet flags", but only after the RuntimeContext (logger, runtime,
environment) has been constructed. -/
theorem conflicting_network_flags_rejected (flags : NetworkFlags)
    (sub : Subcommand) (h : 1 < populatedCount flags) :
    (run (mkInputFlags flags sub)).2 =
      .done (.error "Invalid combination of testnet flags") ∧
    Event.builtLogger ∈ (run (mkInputFlags flags sub)).1 ∧
    Event.builtRuntime ∈ (run (mkInputFlags flags sub)).1 ∧
    Event.builtEnvironment ∈ (run (mkInputFlags flags sub)).1 := by
  have hnn := networkName_conflict flags "mainnet" h
  refine ⟨?_, ?_, ?_, ?_⟩ <;> simp [run, mkInputFlags, hnn]

/-- C3 witness: the amended theorem applied to the conflicting flags with
a beacon-node subcommand. -/
theorem conflicting_network_flags_rejected_witness :
    1 < populatedCount conflictingFlags ∧
    ((run (mkInputFlags conflictingFlags (.beacon_node false (.ok ())))).2 =
       .done (.error "Invalid combination of testnet flags") ∧
     Event.builtLogger ∈
       (run (mkInputFlags conflictingFlags (.beacon_node false (.ok ())))).1 ∧
     Event.builtRuntime ∈
       (run (mkInputFlags conflictingFlags (.beacon_node false (.ok ())))).1 ∧
     Event.builtEnvironment ∈
       (run (mkInputFlags conflictingFlags (.beacon_node false (.ok ())))).1) :=
  ⟨by decide,
   conflicting_network_flags_rejected conflictingFlags (.beacon_node false (.ok ()))
     (by decide)⟩

/-- C4: whenever the supervised-shutdown path accepts a reason, the exit
status is derived from that single reason: `Success` exits with status 0;
`Failure(msg)` exits with status 1 and `msg` is the standard-error
line. -/
theorem exit_status_from_accepted_reason (i : RunInput) (r : ShutdownReason)
    (h : Event.receivedReason r ∈ (run i).1) :
    processExitStatus (run i).2 = reasonExitStatus r ∧
    processStderr (run i).1 (run i).2 = reasonStderr r := by
  rcases run_shape i with ⟨_, hn, _⟩ | ⟨_, hn, _, _⟩ | ⟨r0, _, _, hres, hep, huniq⟩
  · exact absurd h (hn r)
  · exact absurd h (hn r)
  · obtain rfl := huniq r h
    rw [hres]
    cases r with
    | Success m =>
        simp [processExitStatus, mapReason, reasonExitStatus, processStderr,
              reasonStderr, hep]
    | Failure m =>
        simp [processExitStatus, mapReason, reasonExitStatus, processStderr,
              reasonStderr, hep]

/-- C4 witness: the theorem applied to the beacon-node immediate-shutdown
run, whose accepted reason is the immediate-shutdown `Success`. -/
theorem exit_status_from_accepted_reason_witness :
    Event.receivedReason
        (ShutdownReason.Success "Beacon node immediate shutdown triggered.") ∈
      (run beaconImmediateInput).1 ∧
    (processExitStatus (run beaconImmediateInput).2 =
       reasonExitStatus
         (ShutdownReason.Success "Beacon node immediate shutdown triggered.") ∧
     processStderr (run beaconImmediateInput).1 (run beaconImmediateInput).2 =
       reasonStderr
         (ShutdownReason.Success "Beacon node immediate shutdown triggered.")) :=
  ⟨by decide,
   exit_status_from_accepted_reason beaconImmediateInput _ (by decide)⟩

/-- C5: with at most one network source populated, the resolved (and then
logged) network name takes exactly one of the four forms: the named
preset; "custom" annotated with the testnet directory; "custom loaded
from" the YAML override file; or the hard-coded default name. -/
theorem network_name_four_forms (flags : NetworkFlags) (dflt : String)
    (h : populatedCount flags ≤ 1) :
    (∃ t, flags.network = some t ∧ flags.testnetDir = none ∧
       flags.testnetYamlConfig = none ∧ networkName flags dflt = .ok t) ∨
    (∃ d, flags.network = none ∧ flags.testnetDir = some d ∧
       flags.testnetYamlConfig = none ∧
       networkName flags dflt = .ok ("custom (" ++ d ++ ")")) ∨
    (∃ y, flags.network = none ∧ flags.testnetDir = none ∧
       flags.testnetYamlConfig = some y ∧
       networkName flags dflt = .ok ("custom loaded from " ++ y)) ∨
    (flags.network = none ∧ flags.testnetDir = none ∧
       flags.testnetYamlConfig = none ∧ networkName flags dflt = .ok dflt) := by
  obtain ⟨n, d, y⟩ := flags
  cases n <;> cases d <;> cases y <;> simp_all [populatedCount, networkName]

/-- C5 witness: the theorem applied to flags naming only the preset
"prater". -/
theorem network_name_four_forms_witness :
    populatedCount presetOnlyFlags ≤ 1 ∧
    ((∃ t, presetOnlyFlags.network = some t ∧ presetOnlyFlags.testnetDir = none ∧
        presetOnlyFlags.testnetYamlConfig = none ∧
        networkName presetOnlyFlags "mainnet" = .ok t) ∨
     (∃ d, presetOnlyFlags.network = none ∧ presetOnlyFlags.testnetDir = some d ∧
        presetOnlyFlags.testnetYamlConfig = none ∧
        networkName presetOnlyFlags "mainnet" = .ok ("custom (" ++ d ++ ")")) ∨
     (∃ y, presetOnlyFlags.network = none ∧ presetOnlyFlags.testnetDir = none ∧
        presetOnlyFlags.testnetYamlConfig = some y ∧
        networkName presetOnlyFlags "mainnet" = .ok ("custom loaded from " ++ y)) ∨
     (presetOnlyFlags.network = none ∧ presetOnlyFlags.testnetDir = none ∧
        presetOnlyFlags.testnetYamlConfig = none ∧
        networkName presetOnlyFlags "mainnet" = .ok "mainnet")) :=
  ⟨by decide, network_name_four_forms presetOnlyFlags "mainnet" (by decide)⟩

/-- C6 counterexample: in a build without the v0.12 capability, a
boot-node invocation whose configuration implies the v0.12 spec variant
still runs the discovery helper and the process exits with status 0 and
no capability message: the check of lines 227-244 is bypassed by the
boot-node path of lines 215-225. -/
theorem boot_node_bypasses_capability_check :
    specSupported ⟨true, false⟩ EthSpecId.V012Legacy = false ∧
    lighthouseMain ⟨true, false⟩ EthSpecId.V012Legacy true input32 =
      ⟨[Event.ranBootNode], some 0, []⟩ :=
  ⟨rfl, rfl⟩

/-- C6 (amended): for every non-boot-node invocation whose spec variant
lacks the compiled-in capability, the process exits with status 1 and two
standard-error lines, the first of which names the unsupported variant,
and no service is launched (the trace is empty); a boot-node invocation
however bypasses the capability check and exits with status 0. -/
theorem unsupported_spec_variant_exits_one (features : BuildFeatures)
    (ethSpecId : EthSpecId) (i : RunInput)
    (h : specSupported features ethSpecId = false) :
    lighthouseMain features ethSpecId false i =
      ⟨[], some 1,
       ["Eth spec `" ++ specName ethSpecId ++
          "` is not supported by this build of Lighthouse",
        "You must compile with a feature flag to enable this spec variant"]⟩ ∧
    containsSub
      ("Eth spec `" ++ specName ethSpecId ++
         "` is not supported by this build of Lighthouse")
      (specName ethSpecId) = true ∧
    lighthouseMain features ethSpecId true i =
      ⟨[Event.ranBootNode], some 0, []⟩ := by
  refine ⟨by simp [lighthouseMain, h], ?_, by simp [lighthouseMain]⟩
  cases ethSpecId with
  | Mainnet => simp [specSupported] at h
  | Minimal => decide
  | V012Legacy => decide

/-- C6 witness: the amended theorem applied to a build with neither
optional capability and the minimal spec variant. -/
theorem unsupported_spec_variant_exits_one_witness :
    specSupported ⟨false, false⟩ EthSpecId.Minimal = false ∧
    (lighthouseMain ⟨false, false⟩ EthSpecId.Minimal false input32 =
       ⟨[], some 1,
        ["Eth spec `" ++ specName EthSpecId.Minimal ++
           "` is not supported by this build of Lighthouse",
         "You must compile with a feature flag to enable this spec variant"]⟩ ∧
     containsSub
       ("Eth spec `" ++ specName EthSpecId.Minimal ++
          "` is not supported by this build of Lighthouse")
       (specName EthSpecId.Minimal) = true ∧
     lighthouseMain ⟨false, false⟩ EthSpecId.Minimal true input32 =
       ⟨[Event.ranBootNode], some 0, []⟩) :=
  ⟨rfl, unsupported_spec_variant_exits_one ⟨false, false⟩ EthSpecId.Minimal input32 rfl⟩

/-- C7: the synchronous modes never enter the supervised-shutdown path:
an account-manager (ManagementUtility) run returns its own outcome
immediately — exit status 0 on success, 1 on failure — and its trace
never touches the ShutdownChannel; a boot-node (DiscoveryHelper) run
bypasses the environment and exits with status 0, also never touching the
channel. -/
theorem synchronous_modes_never_touch_channel (flags : NetworkFlags)
    (result : Except String Unit) (features : BuildFeatures)
    (ethSpecId : EthSpecId) (i : RunInput)
    (h : populatedCount flags ≤ 1) :
    (channelFree (run (mkInputFlags flags (.account_manager result))).1 = true ∧
     (run (mkInputFlags flags (.account_manager result))).2 = .done result ∧
     processExitStatus (run (mkInputFlags flags (.account_manager result))).2 =
       some (ownExitStatus result)) ∧
    (lighthouseMain features ethSpecId true i =
       ⟨[Event.ranBootNode], some 0, []⟩ ∧
     channelFree [Event.ranBootNode] = true) := by
  obtain ⟨name, hok⟩ := networkName_ok_of_single flags "mainnet" h
  refine ⟨⟨?_, ?_, ?_⟩, by simp [lighthouseMain], by decide⟩
  · simp [run, mkInputFlags, hok, channelFree, touchesChannel]
  · simp [run, mkInputFlags, hok]
  · cases result <;> simp [run, mkInputFlags, hok, processExitStatus, ownExitStatus]

/-- C7 witness: the theorem applied to default flags, a successful
account-manager outcome, and a fully-featured mainnet boot-node run. -/
theorem synchronous_modes_never_touch_channel_witness :
    populatedCount defaultFlags ≤ 1 ∧
    ((channelFree (run (mkInputFlags defaultFlags (.account_manager (.ok ())))).1 = true ∧
      (run (mkInputFlags defaultFlags (.account_manager (.ok ())))).2 = .done (.ok ()) ∧
      processExitStatus
          (run (mkInputFlags defaultFlags (.account_manager (.ok ())))).2 =
        some (ownExitStatus (.ok ()))) ∧
     (lighthouseMain ⟨true, true⟩ EthSpecId.Mainnet true input32 =
        ⟨[Event.ranBootNode], some 0, []⟩ ∧
      channelFree [Event.ranBootNode] = true)) :=
  ⟨by decide,
   synchronous_modes_never_touch_channel defaultFlags (.ok ()) ⟨true, true⟩
     EthSpecId.Mainnet input32 (by decide)⟩

/-- C8: the ShutdownChannel is single-slot: the first reason sent is the
one accepted, every later send attempt is silently dropped, and the
supervised-shutdown outcome is exactly what it would be with the first
reason alone. -/
theorem first_reason_wins (r : ShutdownReason) (rest : List ShutdownReason)
    (interrupt : Bool) :
    acceptedReason (r :: rest) = some r ∧
    supervisorTail (acceptedReason (r :: rest)) interrupt =
      supervisorTail (some r) interrupt := by
  rw [acceptedReason_cons]
  exact ⟨rfl, rfl⟩

/-- C9: in every run the supervised-shutdown steps occur in source order:
either none occurred, or the supervisor blocked forever on the wait step,
or the full sequence wait (0), reason received (1), fire_signal (2),
shutdown_on_idle (3) occurred in exactly that order — in particular the
cancellation signal never fires before a reason is received. -/
theorem shutdown_steps_ordered (i : RunInput) :
    shutdownSteps (run i).1 = [] ∨ shutdownSteps (run i).1 = [0] ∨
    shutdownSteps (run i).1 = [0, 1, 2, 3] := by
  rcases run_shape i with ⟨h, _, _⟩ | ⟨h, _, _, _⟩ | ⟨r0, h, _, _, _, _⟩
  exacts [Or.inl h, Or.inr (Or.inl h), Or.inr (Or.inr h)]

/-- C10: on a platform whose pointer width is not 64 bits, `run` returns
the unsupported-architecture error immediately — so the process exits
with status 1 — and the trace is empty: no logger, runtime or environment
construction has happened. -/
theorem non_64bit_arch_rejected (i : RunInput) (h : i.pointerWidthBytes ≠ 8) :
    run i = ([], .done (.error (toString (i.pointerWidthBytes * 8) ++
        "-bit architecture is not supported (64-bit only).")))
      ∧ processExitStatus (run i).2 = some 1
      ∧ Event.builtLogger ∉ (run i).1
      ∧ Event.builtRuntime ∉ (run i).1
      ∧ Event.builtEnvironment ∉ (run i).1 := by
  have hr : run i = ([], .done (.error (toString (i.pointerWidthBytes * 8) ++
      "-bit architecture is not supported (64-bit only)."))) := by
    simp [run, h]
  rw [hr]
  simp [processExitStatus]

/-- C10 witness: the theorem applied to a 32-bit platform. -/
theorem non_64bit_arch_rejected_witness :
    input32.pointerWidthBytes ≠ 8 ∧
    (run input32 = ([], .done (.error (toString (input32.pointerWidthBytes * 8) ++
         "-bit architecture is not supported (64-bit only).")))
       ∧ processExitStatus (run input32).2 = some 1
       ∧ Event.builtLogger ∉ (run input32).1
       ∧ Event.builtRuntime ∉ (run input32).1
       ∧ Event.builtEnvironment ∉ (run input32).1) :=
  ⟨by decide, non_64bit_arch_rejected input32 (by decide)⟩

end Lighthouse
